import Mathlib

/-!
Shallow embedding of the `scribe` logging library (src/log.h, src/log.cpp).

The library routes messages to one of three sinks (stderr, fixed file,
daily-rolling file) behind a process-wide singleton.  External effects are
modelled explicitly:

* the outcome of a single stream insertion (`m_File << msg`) is a
  `StreamWrite` parameter: it succeeds, sets the bad bit, or raises;
* filesystem outcomes (directory creation, `fstream::open`) are Boolean
  oracle parameters `dirOk` / `fileOk`;
* the current local time (`localtime_r`) is a `Tm` parameter `today`;
* file contents are tracked per open handle as the list of appended
  messages (`written`), with `durable` counting how many of those bytes
  have been flushed to the stream.

C++ exceptions are modelled with `Except`: a function that may throw
returns `Except Unit _`, and its caller's `try`/`catch` block is the match
on that result.
-/

namespace Scribe

/-- Outcome of one stream insertion `m_File << msg`. -/
inductive StreamWrite
  | ok
  | bad
  | exn
deriving DecidableEq, Repr

/-- The fields of `struct tm` the library reads: `tm_year` (years since
1900), `tm_mon` (0-based month), `tm_mday` (1-based day of month). -/
structure Tm where
  tm_year : Int
  tm_mon : Nat
  tm_mday : Nat
deriving DecidableEq, Repr

/-- State of a `FileLogger` (log.h lines 102-138): the inherited `Logger`
fields (`m_Level`, `m_MaxFlushNum`, `m_NotFlushedNum`), the path triple,
the thread-safety flag, and the `fstream` modelled by its open flag, the
messages appended through it, and how many of them are flushed. -/
structure FileLogger where
  level : Nat
  maxFlushNum : Nat
  notFlushedNum : Nat
  filePath : String
  fileBaseName : String
  fileSuffix : String
  threadSafe : Bool
  fileOpen : Bool
  written : List String
  durable : Nat
deriving DecidableEq, Repr

/-- FileLogger::getFullFileName (log.cpp lines 303-324). -/
def FileLogger.getFullFileName (fl : FileLogger) : String :=
  let full1 : String :=
    if fl.filePath ≠ "" then
      (if fl.filePath.back ≠ '/' then fl.filePath ++ "/" else fl.filePath)
    else ""
  let full2 : String := full1 ++ fl.fileBaseName
  if fl.fileSuffix ≠ "" then
    (if fl.fileSuffix.front = '.' then full2 ++ fl.fileSuffix
     else full2 ++ "." ++ fl.fileSuffix)
  else full2

/-- FileLogger::close (log.cpp lines 273-280): flush and close when open;
always returns true. -/
def FileLogger.close (fl : FileLogger) : Bool × FileLogger :=
  if fl.fileOpen then
    (true, { fl with durable := fl.written.length, fileOpen := false })
  else (true, fl)

/-- FileLogger::open (log.cpp lines 237-271): ensure the directory exists
(`dirOk` models success of `exists`/`create_directories`, exceptions
included), then close any open handle, then open in append mode (`fileOk`
models `m_File.good()` afterwards). -/
def FileLogger.openf (fl : FileLogger) (dirOk fileOk : Bool) : Bool × FileLogger :=
  if dirOk = false then (false, fl)
  else
    let fl1 := (fl.close).2
    if fileOk then (true, { fl1 with fileOpen := true })
    else (false, fl1)

/-- FileLogger::writeLog (log.cpp lines 326-339).  Not open: false.  The
insertion may raise (`.error`), otherwise the message is appended (lost
when the bad bit is set), `m_NotFlushedNum` is incremented and compared
with `m_MaxFlushNum`, flushing and resetting at the threshold; returns
`!m_File.bad()`. -/
def FileLogger.writeLog (fl : FileLogger) (msg : String) (w : StreamWrite) :
    Except Unit (Bool × FileLogger) :=
  if fl.fileOpen = false then .ok (false, fl)
  else if w = StreamWrite.exn then .error ()
  else
    let fl1 := if w = StreamWrite.bad then fl
      else { fl with written := fl.written ++ [msg] }
    let b : Bool := if w = StreamWrite.bad then false else true
    if fl1.notFlushedNum + 1 ≥ fl1.maxFlushNum then
      .ok (b, { fl1 with notFlushedNum := 0, durable := fl1.written.length })
    else
      .ok (b, { fl1 with notFlushedNum := fl1.notFlushedNum + 1 })

/-- FileLogger::logImpl (log.cpp lines 282-301): both branches of the
thread-safety test call `writeLog`; the surrounding `try`/`catch`
downgrades an exception to a false return. -/
def FileLogger.logImpl (fl : FileLogger) (msg : String) (w : StreamWrite) :
    Bool × FileLogger :=
  match fl.writeLog msg w with
  | .ok r => r
  | .error _ => (false, fl)

/-- Logger::log (log.cpp lines 175-181) specialised to a `FileLogger`:
the level gate before `logImpl`. -/
def FileLogger.log (fl : FileLogger) (msg : String) (lvl : Nat) (w : StreamWrite) :
    Bool × FileLogger :=
  if lvl ≥ fl.level then fl.logImpl msg w else (false, fl)

/-- State of a `StdErrLogger` (log.h lines 144-159): only the inherited
`Logger` fields. -/
structure StdErrLogger where
  level : Nat
  maxFlushNum : Nat
  notFlushedNum : Nat
deriving DecidableEq, Repr

/-- StdErrLogger::logImpl (log.cpp lines 366-369): append the message to
the standard-error stream and return true. -/
def StdErrLogger.logImpl (s : StdErrLogger) (msg : String) (errBytes : List String) :
    Bool × StdErrLogger × List String :=
  (true, s, errBytes ++ [msg])

/-- Logger::log (log.cpp lines 175-181) specialised to a `StdErrLogger`. -/
def StdErrLogger.log (s : StdErrLogger) (msg : String) (lvl : Nat) (errBytes : List String) :
    Bool × StdErrLogger × List String :=
  if lvl ≥ s.level then s.logImpl msg errBytes else (false, s, errBytes)

/-- Rendering of `setw(2) << setfill('0') << n` for a non-negative field:
zero-pad the decimal form to width two (wider values print in full). -/
def zpad2 (n : Nat) : String :=
  if n < 10 then "0" ++ toString n else toString n

/-- State of a `RollingFileLogger` (log.h lines 165-192): the inherited
`Logger` fields, the path triple, `m_LastCreatedTime`, and the owned inner
`FileLogger` (`m_pFileLogger`, null until the first `open`). -/
structure RollingFileLogger where
  level : Nat
  maxFlushNum : Nat
  notFlushedNum : Nat
  filePath : String
  fileBaseName : String
  fileSuffix : String
  lastCreatedTime : Tm
  pFileLogger : Option FileLogger
deriving DecidableEq, Repr

/-- RollingFileLogger::getFileNameByDate (log.cpp lines 454-461):
`base << '-' << tm_year + 1900 << '-' << setw(2) ... tm_mon + 1 << '-'
<< setw(2) ... tm_mday` — the year is printed with no width specifier. -/
def RollingFileLogger.getFileNameByDate (r : RollingFileLogger) (date : Tm) : String :=
  r.fileBaseName ++ "-" ++ toString (date.tm_year + 1900) ++ "-"
    ++ zpad2 (date.tm_mon + 1) ++ "-" ++ zpad2 date.tm_mday

/-- RollingFileLogger::close (log.cpp lines 411-416): close the inner
logger when present; always true. -/
def RollingFileLogger.close (r : RollingFileLogger) : Bool × RollingFileLogger :=
  match r.pFileLogger with
  | some fl => (true, { r with pFileLogger := some (fl.close).2 })
  | none => (true, r)

/-- RollingFileLogger::open (log.cpp lines 397-409): record today in
`m_LastCreatedTime`, build the dated base name, replace `m_pFileLogger`
with a fresh `FileLogger(path, name, suffix, level, maxFlushNum, false)`
and open it. -/
def RollingFileLogger.openf (r : RollingFileLogger) (today : Tm) (dirOk fileOk : Bool) :
    Bool × RollingFileLogger :=
  let r1 := { r with lastCreatedTime := today }
  let fileName := r1.getFileNameByDate r1.lastCreatedTime
  let fresh : FileLogger :=
    { level := r1.level, maxFlushNum := r1.maxFlushNum, notFlushedNum := 0,
      filePath := r1.filePath, fileBaseName := fileName, fileSuffix := r1.fileSuffix,
      threadSafe := false, fileOpen := false, written := [], durable := 0 }
  let p := fresh.openf dirOk fileOk
  (p.1, { r1 with pFileLogger := some p.2 })

/-- RollingFileLogger::rotateFile (log.cpp lines 444-447): `close()` then
`open()`, results discarded. -/
def RollingFileLogger.rotateFile (r : RollingFileLogger) (today : Tm) (dirOk fileOk : Bool) :
    RollingFileLogger :=
  ((r.close).2.openf today dirOk fileOk).2

/-- RollingFileLogger::logImpl (log.cpp lines 418-442): rotate when the
current `tm_mday` differs from `m_LastCreatedTime.tm_mday`, then forward
to the inner logger's `logImpl` (false when the inner logger is null). -/
def RollingFileLogger.logImpl (r : RollingFileLogger) (msg : String) (today : Tm)
    (dirOk fileOk : Bool) (w : StreamWrite) : Bool × RollingFileLogger :=
  let r1 := if r.lastCreatedTime.tm_mday ≠ today.tm_mday
    then r.rotateFile today dirOk fileOk else r
  match r1.pFileLogger with
  | some fl =>
    let p := fl.logImpl msg w
    (p.1, { r1 with pFileLogger := some p.2 })
  | none => (false, r1)

/-- Logger::log (log.cpp lines 175-181) specialised to a
`RollingFileLogger`. -/
def RollingFileLogger.log (r : RollingFileLogger) (msg : String) (lvl : Nat) (today : Tm)
    (dirOk fileOk : Bool) (w : StreamWrite) : Bool × RollingFileLogger :=
  if lvl ≥ r.level then r.logImpl msg today dirOk fileOk w else (false, r)

/-- The external configuration view (log_config.h, out of repository):
a finite map from option names to unsigned or string values, with the
`getUnsigned`/`getString` lookups the sinks consume. -/
structure LogConfig where
  uEntries : List (String × Nat)
  sEntries : List (String × String)
deriving DecidableEq, Repr

/-- LogConfig::getUnsigned: the value under the key, when present. -/
def LogConfig.getUnsignedOpt (c : LogConfig) (key : String) : Option Nat :=
  (c.uEntries.find? (fun p => p.1 == key)).map (fun p => p.2)

/-- LogConfig::getString: the value under the key, when present. -/
def LogConfig.getStringOpt (c : LogConfig) (key : String) : Option String :=
  (c.sEntries.find? (fun p => p.1 == key)).map (fun p => p.2)

/-- Logger::config, level part (log.cpp lines 160-168): accept
`log_level` only when it is below LOG_LEVEL_MAX = 4. -/
def loggerConfigLevel (c : LogConfig) (lvl : Nat) : Nat :=
  match c.getUnsignedOpt "log_level" with
  | some num => if num < 4 then num else lvl
  | none => lvl

/-- Logger::config, flush part (log.cpp line 170): `num_logs_to_flush`
overwrites `m_MaxFlushNum` whenever present. -/
def loggerConfigFlush (c : LogConfig) (m : Nat) : Nat :=
  (c.getUnsignedOpt "num_logs_to_flush").getD m

/-- FileLogger::config (log.cpp lines 227-235). -/
def FileLogger.config (fl : FileLogger) (c : LogConfig) : FileLogger :=
  { fl with
    level := loggerConfigLevel c fl.level,
    maxFlushNum := loggerConfigFlush c fl.maxFlushNum,
    filePath := (c.getStringOpt "file_path").getD fl.filePath,
    fileBaseName := (c.getStringOpt "file_base_name").getD fl.fileBaseName,
    fileSuffix := (c.getStringOpt "file_suffix").getD fl.fileSuffix }

/-- StdErrLogger::config (log.cpp lines 354-356). -/
def StdErrLogger.config (s : StdErrLogger) (c : LogConfig) : StdErrLogger :=
  { s with
    level := loggerConfigLevel c s.level,
    maxFlushNum := loggerConfigFlush c s.maxFlushNum }

/-- RollingFileLogger::config (log.cpp lines 387-395). -/
def RollingFileLogger.config (r : RollingFileLogger) (c : LogConfig) : RollingFileLogger :=
  { r with
    level := loggerConfigLevel c r.level,
    maxFlushNum := loggerConfigFlush c r.maxFlushNum,
    filePath := (c.getStringOpt "file_path").getD r.filePath,
    fileBaseName := (c.getStringOpt "file_base_name").getD r.fileBaseName,
    fileSuffix := (c.getStringOpt "file_suffix").getD r.fileSuffix }

/-- FileLogger's default constructor (log.cpp lines 202-208): level INFO,
flush batch 1, `/tmp/log` + `log` + empty suffix, thread safe. -/
def FileLogger.mkDefault : FileLogger :=
  { level := 1, maxFlushNum := 1, notFlushedNum := 0,
    filePath := "/tmp/log", fileBaseName := "log", fileSuffix := "",
    threadSafe := true, fileOpen := false, written := [], durable := 0 }

/-- StdErrLogger's default constructor (log.cpp lines 346-348). -/
def StdErrLogger.mkDefault : StdErrLogger :=
  { level := 1, maxFlushNum := 1, notFlushedNum := 0 }

/-- RollingFileLogger's default constructor (log.cpp lines 376-381);
`m_LastCreatedTime` is set on `open`, an arbitrary value stands in,
and `m_pFileLogger` starts null. -/
def RollingFileLogger.mkDefault : RollingFileLogger :=
  { level := 1, maxFlushNum := 1, notFlushedNum := 0,
    filePath := "/tmp/log", fileBaseName := "log", fileSuffix := "",
    lastCreatedTime := { tm_year := 0, tm_mon := 0, tm_mday := 1 },
    pFileLogger := none }

/-- The one sink the facade owns: `m_pLogger`, one of the three
`Logger` subclasses. -/
inductive Sink
  | stderrS (s : StdErrLogger)
  | fileS (f : FileLogger)
  | rollingS (r : RollingFileLogger)
deriving DecidableEq, Repr

/-- Logger::createLoggerInterface (log.cpp lines 119-141): destination 0,
1, 2 produce the default-constructed sink; anything else throws
(`none`). -/
def createLoggerInterface (ty : Nat) : Option Sink :=
  if ty = 0 then some (.stderrS StdErrLogger.mkDefault)
  else if ty = 1 then some (.fileS FileLogger.mkDefault)
  else if ty = 2 then some (.rollingS RollingFileLogger.mkDefault)
  else none

/-- Virtual dispatch of `config` over the three sinks. -/
def Sink.config (s : Sink) (c : LogConfig) : Sink :=
  match s with
  | .stderrS x => .stderrS (x.config c)
  | .fileS x => .fileS (x.config c)
  | .rollingS x => .rollingS (x.config c)

/-- Virtual dispatch of `open` over the three sinks (StdErrLogger::open
is a no-op returning true, log.cpp lines 358-360). -/
def Sink.openf (s : Sink) (today : Tm) (dirOk fileOk : Bool) : Bool × Sink :=
  match s with
  | .stderrS x => (true, .stderrS x)
  | .fileS x => let p := x.openf dirOk fileOk; (p.1, .fileS p.2)
  | .rollingS x => let p := x.openf today dirOk fileOk; (p.1, .rollingS p.2)

/-- Virtual dispatch of Logger::log over the three sinks, threading the
standard-error byte list for the stderr variant. -/
def Sink.log (s : Sink) (msg : String) (lvl : Nat) (today : Tm)
    (dirOk fileOk : Bool) (w : StreamWrite) (errBytes : List String) :
    Bool × Sink × List String :=
  match s with
  | .stderrS x => let p := x.log msg lvl errBytes; (p.1, .stderrS p.2.1, p.2.2)
  | .fileS x => let p := x.log msg lvl w; (p.1, .fileS p.2, errBytes)
  | .rollingS x => let p := x.log msg lvl today dirOk fileOk w; (p.1, .rollingS p.2, errBytes)

/-- The facade's state (log.h lines 47-68): the parsed configuration and
the owned sink. -/
structure LogSys where
  cfg : LogConfig
  pLogger : Sink
deriving DecidableEq, Repr

/-- The LogSys constructor (log.cpp lines 66-97).  `parseRes` is the
external parser's outcome for a non-empty path (`none` = parse failure,
which throws); an empty path skips parsing and keeps the empty view.
Then `log_dest` (default 0 = stderr) selects the sink; an unknown value
throws; `config` is called (it never fails) and a failed `open`
throws. -/
def LogSys.construct (configFile : String) (parseRes : Option LogConfig)
    (today : Tm) (dirOk fileOk : Bool) : Except String LogSys :=
  match (if configFile = "" then some { uEntries := [], sEntries := [] } else parseRes) with
  | none => .error "Errors happened when read the log config file!"
  | some cfg =>
    let desti := (cfg.getUnsignedOpt "log_dest").getD 0
    match createLoggerInterface desti with
    | none => .error "Wrong log type!"
    | some lg =>
      let lg1 := lg.config cfg
      let p := lg1.openf today dirOk fileOk
      if p.1 then .ok { cfg := cfg, pLogger := p.2 }
      else .error "Failed to open log"

/-- LogSys::initialize (log.cpp lines 42-60) acting on the singleton slot
`s_pLogSys`: when the slot is filled, return true untouched; otherwise
run the constructor, catching its exception as a false return that
leaves the slot empty. -/
def LogSys.init (st : Option LogSys) (configFile : String) (parseRes : Option LogConfig)
    (today : Tm) (dirOk fileOk : Bool) : Bool × Option LogSys :=
  match st with
  | some s => (true, some s)
  | none =>
    match LogSys.construct configFile parseRes today dirOk fileOk with
    | .ok sys => (true, some sys)
    | .error _ => (false, none)

/-- LOG_OUT (log.cpp lines 30-33): when the singleton exists, forward to
`LogSys::log`, which forwards to the sink's `Logger::log`; otherwise do
nothing. -/
def LOG_OUT (st : Option LogSys) (msg : String) (lvl : Nat) (today : Tm)
    (dirOk fileOk : Bool) (w : StreamWrite) (errBytes : List String) :
    Option LogSys × List String :=
  match st with
  | none => (none, errBytes)
  | some s =>
    let p := s.pLogger.log msg lvl today dirOk fileOk w errBytes
    (some { s with pLogger := p.2.1 }, p.2.2)

/-- Written to the spec's words (§8 naming law): the full path a File
sink should compose, for comparison with `getFullFileName`. -/
def spec_fullPath (dir base suffix : String) : String :=
  dir ++ "/" ++ base ++
    (if suffix = "" then ""
     else if suffix.front = '.' then suffix else "." ++ suffix)

/-- Written to the spec's words: zero-pad a decimal rendering to width
two. -/
def spec_zpad2 (n : Nat) : String :=
  if n < 10 then "0" ++ toString n else toString n

/-- Written to the spec's words: zero-pad a decimal rendering to width
four (`zpad4`; the year "is rendered as four digits"). -/
def spec_zpad4 (y : Int) : String :=
  if 0 ≤ y ∧ y < 10 then "000" ++ toString y
  else if 0 ≤ y ∧ y < 100 then "00" ++ toString y
  else if 0 ≤ y ∧ y < 1000 then "0" ++ toString y
  else toString y

/-- Days in a month of the proleptic Gregorian calendar, `mon` 0-based,
`year` as in `tm_year` (years since 1900); used only to express what "the
next calendar day" means for `localtime_r` dates. -/
def daysInMonth (tmYear : Int) (mon : Nat) : Nat :=
  if mon = 1 then
    (if (tmYear + 1900) % 4 = 0 ∧ ((tmYear + 1900) % 100 ≠ 0 ∨ (tmYear + 1900) % 400 = 0)
     then 29 else 28)
  else if mon = 3 ∨ mon = 5 ∨ mon = 8 ∨ mon = 10 then 30
  else 31

/-- A `struct tm` date with its fields in the ranges `localtime_r`
produces. -/
def Tm.valid (d : Tm) : Prop :=
  d.tm_mon ≤ 11 ∧ 1 ≤ d.tm_mday ∧ d.tm_mday ≤ daysInMonth d.tm_year d.tm_mon

instance (d : Tm) : Decidable d.valid := by
  unfold Tm.valid; infer_instance

/-- The calendar day after `d`. -/
def Tm.nextDay (d : Tm) : Tm :=
  if d.tm_mday < daysInMonth d.tm_year d.tm_mon then
    { d with tm_mday := d.tm_mday + 1 }
  else if d.tm_mon < 11 then
    { tm_year := d.tm_year, tm_mon := d.tm_mon + 1, tm_mday := 1 }
  else
    { tm_year := d.tm_year + 1, tm_mon := 0, tm_mday := 1 }

/-- A concrete inner day file: what `RollingFileLogger::open` builds on
2024-01-15 (level INFO, flush batch 1), after a successful open and no
writes yet. -/
def innerJan15 : FileLogger :=
  { level := 1, maxFlushNum := 1, notFlushedNum := 0,
    filePath := "/tmp/log", fileBaseName := "log-2024-01-15", fileSuffix := "",
    threadSafe := false, fileOpen := true, written := [], durable := 0 }

/-- A concrete Rolling sink as left by a successful `open` on local date
2024-01-15 (`tm_year` 124, `tm_mon` 0, `tm_mday` 15). -/
def rollJan15 : RollingFileLogger :=
  { level := 1, maxFlushNum := 1, notFlushedNum := 0,
    filePath := "/tmp/log", fileBaseName := "log", fileSuffix := "",
    lastCreatedTime := { tm_year := 124, tm_mon := 0, tm_mday := 15 },
    pFileLogger := some innerJan15 }

/-- String append is associative (via the underlying character lists). -/
theorem string_append_assoc (a b c : String) : (a ++ b) ++ c = a ++ (b ++ c) :=
  String.ext (by simp)

/-- A write against a closed handle fails and changes nothing. -/
theorem logImpl_closed (fl : FileLogger) (msg : String) (w : StreamWrite)
    (h : fl.fileOpen = false) : fl.logImpl msg w = (false, fl) := by
  unfold FileLogger.logImpl FileLogger.writeLog
  simp [h]

/-- An insertion that raises is caught and changes nothing. -/
theorem logImpl_exn (fl : FileLogger) (msg : String) :
    fl.logImpl msg StreamWrite.exn = (false, fl) := by
  unfold FileLogger.logImpl FileLogger.writeLog
  by_cases h : fl.fileOpen = false <;> simp [h]

/-- A successful write to an open handle: the message is appended, the
counter is incremented and flushed back to zero at the threshold, and the
call returns true. -/
theorem logImpl_ok_open (fl : FileLogger) (msg : String) (h : fl.fileOpen = true) :
    fl.logImpl msg StreamWrite.ok =
      (true,
       if fl.notFlushedNum + 1 ≥ fl.maxFlushNum then
         { fl with written := fl.written ++ [msg], notFlushedNum := 0,
                   durable := (fl.written ++ [msg]).length }
       else
         { fl with written := fl.written ++ [msg],
                   notFlushedNum := fl.notFlushedNum + 1 }) := by
  unfold FileLogger.logImpl FileLogger.writeLog
  by_cases ht : fl.notFlushedNum + 1 ≥ fl.maxFlushNum <;> simp [h, ht]

/-- A write whose insertion sets the bad bit: the bytes are lost, the
counter still advances, and the call returns false. -/
theorem logImpl_bad_open (fl : FileLogger) (msg : String) (h : fl.fileOpen = true) :
    fl.logImpl msg StreamWrite.bad =
      (false,
       if fl.notFlushedNum + 1 ≥ fl.maxFlushNum then
         { fl with notFlushedNum := 0, durable := fl.written.length }
       else
         { fl with notFlushedNum := fl.notFlushedNum + 1 }) := by
  unfold FileLogger.logImpl FileLogger.writeLog
  by_cases ht : fl.notFlushedNum + 1 ≥ fl.maxFlushNum <;> simp [h, ht]

/-- Any `logImpl` call keeps the not-yet-flushed counter below the flush
threshold and preserves the threshold itself. -/
theorem logImpl_notFlushed_bound (fl : FileLogger) (msg : String) (w : StreamWrite)
    (h1 : 1 ≤ fl.maxFlushNum) (h2 : fl.notFlushedNum ≤ fl.maxFlushNum - 1) :
    (fl.logImpl msg w).2.notFlushedNum ≤ fl.maxFlushNum - 1
    ∧ (fl.logImpl msg w).2.maxFlushNum = fl.maxFlushNum := by
  by_cases ho : fl.fileOpen = false
  · rw [logImpl_closed fl msg w ho]
    exact ⟨h2, rfl⟩
  · rw [Bool.not_eq_false] at ho
    cases w with
    | ok =>
      rw [logImpl_ok_open fl msg ho]
      by_cases ht : fl.notFlushedNum + 1 ≥ fl.maxFlushNum <;> simp [ht] <;> omega
    | bad =>
      rw [logImpl_bad_open fl msg ho]
      by_cases ht : fl.notFlushedNum + 1 ≥ fl.maxFlushNum <;> simp [ht] <;> omega
    | exn =>
      rw [logImpl_exn fl msg]
      exact ⟨h2, rfl⟩

/-- RollingFileLogger::open in closed form: it succeeds iff both the
directory step and the file open succeed, records today, and installs a
fresh inner logger named after today whose handle is open exactly on
success. -/
theorem rolling_openf_eq (r : RollingFileLogger) (today : Tm) (dirOk fileOk : Bool) :
    r.openf today dirOk fileOk =
      (dirOk && fileOk,
       { r with lastCreatedTime := today,
                pFileLogger := some
                  { level := r.level, maxFlushNum := r.maxFlushNum, notFlushedNum := 0,
                    filePath := r.filePath,
                    fileBaseName := r.getFileNameByDate today,
                    fileSuffix := r.fileSuffix, threadSafe := false,
                    fileOpen := dirOk && fileOk, written := [], durable := 0 } }) := by
  unfold RollingFileLogger.openf FileLogger.openf FileLogger.close
    RollingFileLogger.getFileNameByDate
  cases dirOk <;> cases fileOk <;> simp

/-- RollingFileLogger::rotateFile equals `open` on the fresh state: the
close only touches the inner logger, which `open` replaces. -/
theorem rotateFile_eq (r : RollingFileLogger) (today : Tm) (dirOk fileOk : Bool) :
    r.rotateFile today dirOk fileOk = (r.openf today dirOk fileOk).2 := by
  unfold RollingFileLogger.rotateFile
  cases hp : r.pFileLogger <;>
    simp [RollingFileLogger.close, hp, rolling_openf_eq,
      RollingFileLogger.getFileNameByDate]

/-- RollingFileLogger::logImpl on a day-of-month change: rotate to a
fresh inner logger named after today, then forward the write to it. -/
theorem rolling_logImpl_rotate (r : RollingFileLogger) (msg : String) (today : Tm)
    (dirOk fileOk : Bool) (w : StreamWrite)
    (hd : r.lastCreatedTime.tm_mday ≠ today.tm_mday) :
    r.logImpl msg today dirOk fileOk w =
      ((FileLogger.logImpl
          { level := r.level, maxFlushNum := r.maxFlushNum, notFlushedNum := 0,
            filePath := r.filePath, fileBaseName := r.getFileNameByDate today,
            fileSuffix := r.fileSuffix, threadSafe := false,
            fileOpen := dirOk && fileOk, written := [], durable := 0 } msg w).1,
       { r with lastCreatedTime := today,
                pFileLogger := some (FileLogger.logImpl
                  { level := r.level, maxFlushNum := r.maxFlushNum, notFlushedNum := 0,
                    filePath := r.filePath, fileBaseName := r.getFileNameByDate today,
                    fileSuffix := r.fileSuffix, threadSafe := false,
                    fileOpen := dirOk && fileOk, written := [], durable := 0 } msg w).2 }) := by
  unfold RollingFileLogger.logImpl
  rw [if_pos hd, rotateFile_eq, rolling_openf_eq]

/-- RollingFileLogger::logImpl when the day of month has not changed:
no rotation; forward to the present inner logger, false when none. -/
theorem rolling_logImpl_same_day (r : RollingFileLogger) (msg : String) (today : Tm)
    (dirOk fileOk : Bool) (w : StreamWrite)
    (hd : r.lastCreatedTime.tm_mday = today.tm_mday) :
    r.logImpl msg today dirOk fileOk w =
      (match r.pFileLogger with
       | some fl => ((fl.logImpl msg w).1,
           { r with pFileLogger := some (fl.logImpl msg w).2 })
       | none => (false, r)) := by
  unfold RollingFileLogger.logImpl
  rw [if_neg (by omega)]

/-- Every month has at least 28 days. -/
theorem daysInMonth_ge (tmYear : Int) (mon : Nat) : 28 ≤ daysInMonth tmYear mon := by
  unfold daysInMonth
  split_ifs <;> omega

/-- C4. For all (dir, base, suffix) with dir non-empty and not ending in
'/', the File sink's composed full path equals
`dir ++ "/" ++ base ++ ("" if suffix = "" else (suffix if suffix starts
with '.' else "." ++ suffix))`; when dir is empty, nothing (and no leading
'/') precedes base. -/
theorem c4_getFullFileName_spec (fl : FileLogger) :
    (fl.filePath ≠ "" → fl.filePath.back ≠ '/' →
      fl.getFullFileName = spec_fullPath fl.filePath fl.fileBaseName fl.fileSuffix)
    ∧ (fl.filePath = "" →
      fl.getFullFileName = fl.fileBaseName ++
        (if fl.fileSuffix = "" then ""
         else if fl.fileSuffix.front = '.' then fl.fileSuffix
         else "." ++ fl.fileSuffix)) := by
  constructor
  · intro h1 h2
    simp only [FileLogger.getFullFileName, spec_fullPath, h1, h2, if_true, if_false,
      ite_true, ite_false, ne_eq, not_false_eq_true, not_true_eq_false]
    by_cases hs : fl.fileSuffix = ""
    · simp [hs, string_append_assoc]
    · by_cases hd : fl.fileSuffix.front = '.'
      · simp [hs, hd, string_append_assoc]
      · simp [hs, hd, string_append_assoc]
  · intro h1
    simp only [FileLogger.getFullFileName, h1, ne_eq, not_true_eq_false, ite_false,
      if_false]
    by_cases hs : fl.fileSuffix = ""
    · simp [hs]
    · by_cases hd : fl.fileSuffix.front = '.'
      · simp [hs, hd, string_append_assoc]
      · simp [hs, hd, string_append_assoc]

/-- C4 witness: the theorem applied to a concrete sink. -/
theorem c4_witness :
    FileLogger.getFullFileName
      { level := 1, maxFlushNum := 1, notFlushedNum := 0,
        filePath := "logs", fileBaseName := "app", fileSuffix := "txt",
        threadSafe := true, fileOpen := false, written := [], durable := 0 } =
      spec_fullPath "logs" "app" "txt" :=
  (c4_getFullFileName_spec _).1 (by decide) (by decide)

/-- C2. For every sink S, message m and level L with L < S.level,
emit(m, L) returns false, produces no bytes at the sink's destination
(the state and the output stream are returned unchanged), and leaves the
pending counter unchanged. -/
theorem c2_level_gate (s : StdErrLogger) (f : FileLogger) (r : RollingFileLogger)
    (msg : String) (lvl : Nat) (today : Tm) (dirOk fileOk : Bool)
    (w : StreamWrite) (errBytes : List String) :
    (lvl < s.level → s.log msg lvl errBytes = (false, s, errBytes))
    ∧ (lvl < f.level → f.log msg lvl w = (false, f))
    ∧ (lvl < r.level → r.log msg lvl today dirOk fileOk w = (false, r)) := by
  refine ⟨fun h => ?_, fun h => ?_, fun h => ?_⟩
  · unfold StdErrLogger.log
    rw [if_neg (by omega)]
  · unfold FileLogger.log
    rw [if_neg (by omega)]
  · unfold RollingFileLogger.log
    rw [if_neg (by omega)]

/-- C2 witness: a DEBUG-level message against INFO-level sinks. -/
theorem c2_witness :
    StdErrLogger.log StdErrLogger.mkDefault "m" 0 [] =
      (false, StdErrLogger.mkDefault, []) ∧
    FileLogger.log FileLogger.mkDefault "m" 0 StreamWrite.ok =
      (false, FileLogger.mkDefault) ∧
    RollingFileLogger.log RollingFileLogger.mkDefault "m" 0
      { tm_year := 124, tm_mon := 1, tm_mday := 2 } true true StreamWrite.ok =
      (false, RollingFileLogger.mkDefault) := by
  have h := c2_level_gate StdErrLogger.mkDefault FileLogger.mkDefault
    RollingFileLogger.mkDefault "m" 0 { tm_year := 124, tm_mon := 1, tm_mday := 2 }
    true true StreamWrite.ok []
  exact ⟨h.1 (by decide), h.2.1 (by decide), h.2.2 (by decide)⟩

/-- C3. For every File or Rolling sink with max_unflushed ≥ 1 whose
pending counter is below the threshold, each successful write increments
pending, and when pending reaches max_unflushed the sink flushes the
stream (everything written becomes durable) and resets pending to 0;
immediately after any emit returns, pending does not exceed
max_unflushed − 1 — for the Rolling sink this holds of its inner File
sink's counter. -/
theorem c3_flush_policy :
    (∀ (fl : FileLogger) (msg : String) (lvl : Nat) (w : StreamWrite),
      1 ≤ fl.maxFlushNum → fl.notFlushedNum ≤ fl.maxFlushNum - 1 →
      ((fl.log msg lvl w).2.notFlushedNum ≤ fl.maxFlushNum - 1
       ∧ (fl.level ≤ lvl → fl.fileOpen = true → w = StreamWrite.ok →
          ((fl.notFlushedNum + 1 < fl.maxFlushNum
             ∧ (fl.log msg lvl w).2.notFlushedNum = fl.notFlushedNum + 1
             ∧ (fl.log msg lvl w).2.durable = fl.durable)
           ∨ (fl.notFlushedNum + 1 = fl.maxFlushNum
             ∧ (fl.log msg lvl w).2.notFlushedNum = 0
             ∧ (fl.log msg lvl w).2.durable = (fl.log msg lvl w).2.written.length)))))
    ∧ (∀ (r : RollingFileLogger) (msg : String) (lvl : Nat) (today : Tm)
        (dirOk fileOk : Bool) (w : StreamWrite),
      1 ≤ r.maxFlushNum →
      (∀ fl, r.pFileLogger = some fl →
        1 ≤ fl.maxFlushNum ∧ fl.notFlushedNum ≤ fl.maxFlushNum - 1) →
      (∀ fl', (r.log msg lvl today dirOk fileOk w).2.pFileLogger = some fl' →
        fl'.notFlushedNum ≤ fl'.maxFlushNum - 1)) := by
  constructor
  · intro fl msg lvl w h1 h2
    unfold FileLogger.log
    by_cases hg : lvl ≥ fl.level
    · rw [if_pos hg]
      refine ⟨(logImpl_notFlushed_bound fl msg w h1 h2).1, ?_⟩
      intro _ ho hw
      subst hw
      rw [logImpl_ok_open fl msg ho]
      by_cases ht : fl.notFlushedNum + 1 ≥ fl.maxFlushNum
      · right
        rw [if_pos ht]
        refine ⟨by omega, by simp, by simp⟩
      · left
        rw [if_neg ht]
        refine ⟨by omega, by simp, by simp⟩
    · rw [if_neg hg]
      exact ⟨h2, fun hg2 => absurd hg2 hg⟩
  · intro r msg lvl today dirOk fileOk w h1 hinv fl' hfl'
    unfold RollingFileLogger.log at hfl'
    by_cases hg : lvl ≥ r.level
    · rw [if_pos hg] at hfl'
      by_cases hd : r.lastCreatedTime.tm_mday = today.tm_mday
      · rw [rolling_logImpl_same_day r msg today dirOk fileOk w hd] at hfl'
        cases hp : r.pFileLogger with
        | none => rw [hp] at hfl'; simp at hfl'; exact absurd hfl' (by simp [hp])
        | some fl =>
          rw [hp] at hfl'
          simp only [Option.some.injEq] at hfl'
          subst hfl'
          have hfl := hinv fl hp
          have hb := logImpl_notFlushed_bound fl msg w hfl.1 hfl.2
          omega
      · rw [rolling_logImpl_rotate r msg today dirOk fileOk w hd] at hfl'
        simp only [Option.some.injEq] at hfl'
        subst hfl'
        have hb := logImpl_notFlushed_bound
          { level := r.level, maxFlushNum := r.maxFlushNum, notFlushedNum := 0,
            filePath := r.filePath, fileBaseName := r.getFileNameByDate today,
            fileSuffix := r.fileSuffix, threadSafe := false,
            fileOpen := dirOk && fileOk, written := [], durable := 0 }
          msg w h1 (Nat.zero_le _)
        omega
    · rw [if_neg hg] at hfl'
      simp only at hfl'
      exact (hinv fl' hfl').2

/-- C3 witness: a File sink with threshold 2 and one pending message; the
emit flushes and resets pending to 0. -/
theorem c3_witness :
    ((FileLogger.log
        { level := 1, maxFlushNum := 2, notFlushedNum := 1,
          filePath := "/tmp/log", fileBaseName := "log", fileSuffix := "",
          threadSafe := true, fileOpen := true, written := ["a"], durable := 0 }
        "b" 1 StreamWrite.ok).2.notFlushedNum ≤ 2 - 1) ∧
    (RollingFileLogger.log RollingFileLogger.mkDefault "m" 1
        { tm_year := 124, tm_mon := 0, tm_mday := 2 } true true
        StreamWrite.ok).2.pFileLogger.all
      (fun fl' => fl'.notFlushedNum ≤ fl'.maxFlushNum - 1) := by
  constructor
  · exact ((c3_flush_policy.1
      { level := 1, maxFlushNum := 2, notFlushedNum := 1,
        filePath := "/tmp/log", fileBaseName := "log", fileSuffix := "",
        threadSafe := true, fileOpen := true, written := ["a"], durable := 0 }
      "b" 1 StreamWrite.ok (by decide) (by decide)).1 : _)
  · have h2 := c3_flush_policy.2 RollingFileLogger.mkDefault "m" 1
      { tm_year := 124, tm_mon := 0, tm_mday := 2 } true true StreamWrite.ok
      (by decide) (by intro fl h; simp [RollingFileLogger.mkDefault] at h)
    cases hp : (RollingFileLogger.log RollingFileLogger.mkDefault "m" 1
        { tm_year := 124, tm_mon := 0, tm_mday := 2 } true true
        StreamWrite.ok).2.pFileLogger with
    | none => simp [Option.all]
    | some fl' => simpa [Option.all, decide_eq_true_eq] using h2 fl' hp

/-- C9. For the File variant, emit with no open handle returns false and
changes nothing; an exception raised by the stream insertion is caught at
the sink boundary and downgraded to a false return (nothing propagates —
`logImpl` is total with a plain Boolean result); a stream error (bad bit)
also yields a false return. -/
theorem c9_file_error_downgrade (fl : FileLogger) (msg : String) (w : StreamWrite) :
    (fl.fileOpen = false → fl.logImpl msg w = (false, fl))
    ∧ (fl.writeLog msg w = .error () → fl.logImpl msg w = (false, fl))
    ∧ (w = StreamWrite.bad → (fl.logImpl msg w).1 = false) := by
  refine ⟨fun h => logImpl_closed fl msg w h, fun h => ?_, fun h => ?_⟩
  · unfold FileLogger.logImpl
    rw [h]
  · subst h
    by_cases ho : fl.fileOpen = false
    · rw [logImpl_closed fl msg _ ho]
    · rw [Bool.not_eq_false] at ho
      rw [logImpl_bad_open fl msg ho]

/-- C9 witness: a closed sink rejects the write, and an open sink whose
insertion raises returns false with the state intact. -/
theorem c9_witness :
    FileLogger.logImpl FileLogger.mkDefault "m" StreamWrite.ok =
      (false, FileLogger.mkDefault) ∧
    FileLogger.logImpl
      { level := 1, maxFlushNum := 1, notFlushedNum := 0,
        filePath := "/tmp/log", fileBaseName := "log", fileSuffix := "",
        threadSafe := true, fileOpen := true, written := [], durable := 0 }
      "m" StreamWrite.exn =
      (false,
       { level := 1, maxFlushNum := 1, notFlushedNum := 0,
         filePath := "/tmp/log", fileBaseName := "log", fileSuffix := "",
         threadSafe := true, fileOpen := true, written := [], durable := 0 }) :=
  ⟨(c9_file_error_downgrade FileLogger.mkDefault "m" StreamWrite.ok).1 (by decide),
   (c9_file_error_downgrade _ "m" StreamWrite.exn).2.1 (by rfl)⟩

/-- C10. A Rolling-sink emit below the sink's level performs no
day-boundary check and never rotates: even when the local `tm_mday` has
changed since `m_LastCreatedTime`, the whole sink state — inner File sink,
its open file, `m_LastCreatedTime` — is returned unchanged and the call
yields false. -/
theorem c10_suppressed_emit_frame (r : RollingFileLogger) (msg : String) (lvl : Nat)
    (today : Tm) (dirOk fileOk : Bool) (w : StreamWrite)
    (hlvl : lvl < r.level) (hday : r.lastCreatedTime.tm_mday ≠ today.tm_mday) :
    r.log msg lvl today dirOk fileOk w = (false, r) := by
  unfold RollingFileLogger.log
  rw [if_neg (by omega)]

/-- C10 witness: suppressed DEBUG emit across a day boundary leaves the
default rolling sink untouched. -/
theorem c10_witness :
    RollingFileLogger.log RollingFileLogger.mkDefault "m" 0
      { tm_year := 124, tm_mon := 0, tm_mday := 2 } true true StreamWrite.ok =
      (false, RollingFileLogger.mkDefault) :=
  c10_suppressed_emit_frame RollingFileLogger.mkDefault "m" 0
    { tm_year := 124, tm_mon := 0, tm_mday := 2 } true true StreamWrite.ok
    (by decide) (by decide)

/-- C5 counterexample: on the local date with year 999 (`tm_year` −901,
reachable from a negative 64-bit `time_t` through `localtime_r`) the code
renders the year with no padding, three digits, not the four-digit
`zpad4` form the claim states. -/
theorem c5_counterexample :
    RollingFileLogger.getFileNameByDate RollingFileLogger.mkDefault
        { tm_year := -901, tm_mon := 0, tm_mday := 5 } = "log-999-01-05"
    ∧ RollingFileLogger.mkDefault.fileBaseName ++ "-"
        ++ spec_zpad4 ((-901 : Int) + 1900) ++ "-" ++ spec_zpad2 (0 + 1) ++ "-"
        ++ spec_zpad2 5 = "log-0999-01-05"
    ∧ ("log-999-01-05" : String) ≠ "log-0999-01-05" := by
  refine ⟨by decide, by decide, by decide⟩

/-- C5 (amended). The per-day file name is
base ++ "-" ++ year ++ "-" ++ zpad2(month) ++ "-" ++ zpad2(day), with the
year rendered in plain decimal without padding; this agrees with the
claimed zpad4 form exactly when the year is at least 1000 (every
contemporary date). -/
theorem c5_amended (r : RollingFileLogger) (date : Tm)
    (h : 1000 ≤ date.tm_year + 1900) :
    r.getFileNameByDate date =
      r.fileBaseName ++ "-" ++ spec_zpad4 (date.tm_year + 1900) ++ "-"
        ++ spec_zpad2 (date.tm_mon + 1) ++ "-" ++ spec_zpad2 date.tm_mday := by
  have h4 : spec_zpad4 (date.tm_year + 1900) = toString (date.tm_year + 1900) := by
    unfold spec_zpad4
    rw [if_neg (by omega), if_neg (by omega), if_neg (by omega)]
  have h2 : ∀ n : Nat, spec_zpad2 n = zpad2 n := fun n => rfl
  rw [h4, h2, h2]
  rfl

/-- C5 witness: the amended equation at 2024-01-15. -/
theorem c5_witness :
    RollingFileLogger.getFileNameByDate RollingFileLogger.mkDefault
        { tm_year := 124, tm_mon := 0, tm_mday := 15 } =
      RollingFileLogger.mkDefault.fileBaseName ++ "-"
        ++ spec_zpad4 ((124 : Int) + 1900) ++ "-" ++ spec_zpad2 (0 + 1) ++ "-"
        ++ spec_zpad2 15 :=
  c5_amended RollingFileLogger.mkDefault
    { tm_year := 124, tm_mon := 0, tm_mday := 15 } (by decide)

/-- C1 counterexample: the sink is Open(2024-01-15); an emit on
2024-02-15 — a different (year, month, day) triple with the same
`tm_mday` — performs no rotation: `m_LastCreatedTime` keeps the old
date and the message is appended to the old day's file, not to
`log-2024-02-15`. -/
theorem c1_counterexample :
    (RollingFileLogger.log rollJan15 "m" 1
        { tm_year := 124, tm_mon := 1, tm_mday := 15 } true true
        StreamWrite.ok).2.lastCreatedTime =
      { tm_year := 124, tm_mon := 0, tm_mday := 15 }
    ∧ (RollingFileLogger.log rollJan15 "m" 1
        { tm_year := 124, tm_mon := 1, tm_mday := 15 } true true
        StreamWrite.ok).2.pFileLogger.map (fun fl => fl.fileBaseName) =
      some "log-2024-01-15"
    ∧ (RollingFileLogger.log rollJan15 "m" 1
        { tm_year := 124, tm_mon := 1, tm_mday := 15 } true true
        StreamWrite.ok).2.pFileLogger.map (fun fl => fl.written) =
      some ["m"]
    ∧ rollJan15.getFileNameByDate { tm_year := 124, tm_mon := 1, tm_mday := 15 } =
      "log-2024-02-15"
    ∧ ({ tm_year := 124, tm_mon := 1, tm_mday := 15 } : Tm) ≠
      { tm_year := 124, tm_mon := 0, tm_mday := 15 } := by
  refine ⟨by decide, by decide, by decide, by decide, by decide⟩

/-- C1 (amended). An emit at or above the sink's level rotates exactly
when the current `tm_mday` differs from the recorded day: it closes and
re-opens, continues in Open(today), and appends the message to the new
day's file; and the calendar successor of any valid date always has a
different `tm_mday`, so a boundary crossed to the immediately following
day — month and year boundaries included — always rotates. -/
theorem c1_amended_rotation :
    (∀ (r : RollingFileLogger) (msg : String) (lvl : Nat) (today : Tm),
      r.level ≤ lvl → r.lastCreatedTime.tm_mday ≠ today.tm_mday →
      ((r.log msg lvl today true true StreamWrite.ok).1 = true
       ∧ (r.log msg lvl today true true StreamWrite.ok).2.lastCreatedTime = today
       ∧ ∃ fl', (r.log msg lvl today true true StreamWrite.ok).2.pFileLogger = some fl'
           ∧ fl'.fileBaseName = r.getFileNameByDate today
           ∧ fl'.fileOpen = true
           ∧ fl'.written = [msg]))
    ∧ (∀ d : Tm, d.valid → (Tm.nextDay d).tm_mday ≠ d.tm_mday) := by
  constructor
  · intro r msg lvl today hg hd
    unfold RollingFileLogger.log
    rw [if_pos hg, rolling_logImpl_rotate r msg today true true StreamWrite.ok hd,
      logImpl_ok_open _ msg rfl]
    refine ⟨rfl, rfl, _, rfl, ?_, ?_, ?_⟩ <;> (split <;> rfl)
  · intro d hv
    obtain ⟨h1, h2, h3⟩ := hv
    have h28 := daysInMonth_ge d.tm_year d.tm_mon
    unfold Tm.nextDay
    split_ifs with ha hb <;> simp <;> omega

/-- C1 witness: the amended theorem at Open(2024-01-15) with an emit on
2024-01-16, and the successor of 2024-01-31. -/
theorem c1_witness :
    ((RollingFileLogger.log rollJan15 "m" 1
        { tm_year := 124, tm_mon := 0, tm_mday := 16 } true true
        StreamWrite.ok).1 = true
     ∧ (RollingFileLogger.log rollJan15 "m" 1
        { tm_year := 124, tm_mon := 0, tm_mday := 16 } true true
        StreamWrite.ok).2.lastCreatedTime =
        { tm_year := 124, tm_mon := 0, tm_mday := 16 }
     ∧ ∃ fl', (RollingFileLogger.log rollJan15 "m" 1
          { tm_year := 124, tm_mon := 0, tm_mday := 16 } true true
          StreamWrite.ok).2.pFileLogger = some fl'
        ∧ fl'.fileBaseName =
            rollJan15.getFileNameByDate { tm_year := 124, tm_mon := 0, tm_mday := 16 }
        ∧ fl'.fileOpen = true
        ∧ fl'.written = ["m"])
    ∧ (Tm.nextDay { tm_year := 124, tm_mon := 0, tm_mday := 31 }).tm_mday ≠
      ({ tm_year := 124, tm_mon := 0, tm_mday := 31 } : Tm).tm_mday :=
  ⟨c1_amended_rotation.1 rollJan15 "m" 1
      { tm_year := 124, tm_mon := 0, tm_mday := 16 } (by decide) (by decide),
   c1_amended_rotation.2 { tm_year := 124, tm_mon := 0, tm_mday := 31 } (by decide)⟩

/-- C8. If the rotation inside a Rolling emit fails at open, the inner
handle is closed, the emit returns false, and later same-day emits keep
returning false without reopening; an emit on a different `tm_mday`
whose rotation succeeds re-opens the sink and writes. -/
theorem c8_rotation_failure :
    (∀ (r : RollingFileLogger) (msg : String) (lvl : Nat) (today : Tm)
        (dirOk fileOk : Bool) (w : StreamWrite),
      r.level ≤ lvl → r.lastCreatedTime.tm_mday ≠ today.tm_mday →
      (dirOk = false ∨ fileOk = false) →
      ((r.log msg lvl today dirOk fileOk w).1 = false
       ∧ (r.log msg lvl today dirOk fileOk w).2.lastCreatedTime = today
       ∧ ∃ fl', (r.log msg lvl today dirOk fileOk w).2.pFileLogger = some fl'
           ∧ fl'.fileOpen = false))
    ∧ (∀ (r : RollingFileLogger) (msg : String) (lvl : Nat) (today : Tm)
        (dirOk fileOk : Bool) (w : StreamWrite) (fl : FileLogger),
      r.lastCreatedTime.tm_mday = today.tm_mday →
      r.pFileLogger = some fl → fl.fileOpen = false →
      r.log msg lvl today dirOk fileOk w = (false, r))
    ∧ (∀ (r : RollingFileLogger) (msg : String) (lvl : Nat) (today : Tm),
      r.level ≤ lvl → r.lastCreatedTime.tm_mday ≠ today.tm_mday →
      ((r.log msg lvl today true true StreamWrite.ok).1 = true
       ∧ ∃ fl', (r.log msg lvl today true true
            StreamWrite.ok).2.pFileLogger = some fl'
           ∧ fl'.fileOpen = true)) := by
  refine ⟨?_, ?_, ?_⟩
  · intro r msg lvl today dirOk fileOk w hg hd hfail
    have hff : (dirOk && fileOk) = false := by
      rcases hfail with h | h <;> simp [h]
    unfold RollingFileLogger.log
    rw [if_pos hg, rolling_logImpl_rotate r msg today dirOk fileOk w hd,
      logImpl_closed _ msg w hff]
    exact ⟨rfl, rfl, _, rfl, hff⟩
  · intro r msg lvl today dirOk fileOk w fl hd hp hclosed
    unfold RollingFileLogger.log
    by_cases hg : lvl ≥ r.level
    · rw [if_pos hg, rolling_logImpl_same_day r msg today dirOk fileOk w hd, hp]
      simp only
      rw [logImpl_closed fl msg w hclosed]
      have he : ({ r with pFileLogger := some fl } : RollingFileLogger) = r := by
        rw [← hp]
      rw [he]
    · rw [if_neg hg]
  · intro r msg lvl today hg hd
    unfold RollingFileLogger.log
    rw [if_pos hg, rolling_logImpl_rotate r msg today true true StreamWrite.ok hd,
      logImpl_ok_open _ msg rfl]
    refine ⟨rfl, _, rfl, ?_⟩
    split <;> rfl

/-- C8 witness: a failed rotation on 2024-01-16 (directory creation
fails) leaves Open(2024-01-15) closed with a false return. -/
theorem c8_witness :
    (RollingFileLogger.log rollJan15 "m" 1
        { tm_year := 124, tm_mon := 0, tm_mday := 16 } false true
        StreamWrite.ok).1 = false
    ∧ (RollingFileLogger.log rollJan15 "m" 1
        { tm_year := 124, tm_mon := 0, tm_mday := 16 } false true
        StreamWrite.ok).2.lastCreatedTime = { tm_year := 124, tm_mon := 0, tm_mday := 16 }
    ∧ ∃ fl', (RollingFileLogger.log rollJan15 "m" 1
        { tm_year := 124, tm_mon := 0, tm_mday := 16 } false true
        StreamWrite.ok).2.pFileLogger = some fl' ∧ fl'.fileOpen = false :=
  c8_rotation_failure.1 rollJan15 "m" 1
    { tm_year := 124, tm_mon := 0, tm_mday := 16 } false true StreamWrite.ok
    (by decide) (by decide) (Or.inl rfl)

/-- C6. init is idempotent: when the singleton already exists, a further
init returns success without re-reading configuration, and the existing
sink is neither replaced nor reconfigured. -/
theorem c6_init_idempotent (s : LogSys) (configFile : String)
    (parseRes : Option LogConfig) (today : Tm) (dirOk fileOk : Bool) :
    LogSys.init (some s) configFile parseRes today dirOk fileOk = (true, some s) :=
  rfl

/-- C7. If the constructor fails for any reason (configuration parse
failure, unrecognized log_dest, sink open failure), init reports failure
by its return value and installs no singleton; and a log call with no
singleton installed is a silent no-op. -/
theorem c7_init_failure_no_singleton :
    (∀ (configFile : String) (parseRes : Option LogConfig) (today : Tm)
        (dirOk fileOk : Bool) (e : String),
      LogSys.construct configFile parseRes today dirOk fileOk = .error e →
      LogSys.init none configFile parseRes today dirOk fileOk = (false, none))
    ∧ (∀ (msg : String) (lvl : Nat) (today : Tm) (dirOk fileOk : Bool)
        (w : StreamWrite) (errBytes : List String),
      LOG_OUT none msg lvl today dirOk fileOk w errBytes = (none, errBytes)) := by
  constructor
  · intro configFile parseRes today dirOk fileOk e h
    unfold LogSys.init
    rw [h]
  · intro msg lvl today dirOk fileOk w errBytes
    rfl

/-- C7 witness: all three failure modes — parse failure, log_dest = 7,
open failure with log_dest = 1 — install no singleton. -/
theorem c7_witness :
    LogSys.init none "scribe.conf" none
      { tm_year := 124, tm_mon := 0, tm_mday := 1 } true true = (false, none)
    ∧ LogSys.init none "scribe.conf"
      (some { uEntries := [("log_dest", 7)], sEntries := [] })
      { tm_year := 124, tm_mon := 0, tm_mday := 1 } true true = (false, none)
    ∧ LogSys.init none "scribe.conf"
      (some { uEntries := [("log_dest", 1)], sEntries := [] })
      { tm_year := 124, tm_mon := 0, tm_mday := 1 } false true = (false, none) :=
  ⟨c7_init_failure_no_singleton.1 "scribe.conf" none
      { tm_year := 124, tm_mon := 0, tm_mday := 1 } true true _ (by rfl),
   c7_init_failure_no_singleton.1 "scribe.conf"
      (some { uEntries := [("log_dest", 7)], sEntries := [] })
      { tm_year := 124, tm_mon := 0, tm_mday := 1 } true true _ (by rfl),
   c7_init_failure_no_singleton.1 "scribe.conf"
      (some { uEntries := [("log_dest", 1)], sEntries := [] })
      { tm_year := 124, tm_mon := 0, tm_mday := 1 } false true _ (by rfl)⟩

end Scribe
